import Mathlib

/-!
Shallow embedding of `nebullvm/inference_learners/tvm.py`: the Apache TVM
inference-learner adapter layer.  Pure data (model parameters, raw arrays,
device identities) is embedded directly; the TVM graph-executor backend is
modelled as explicit state together with an event trace recording every
`set_input` / `run` / `get_output` call, and the filesystem used by
`save` / `load` is an association list from paths to file contents.
Numeric array payloads are `List Int` (bit-for-bit identity is plain
equality).
-/

/-- A backend-neutral raw numeric array (the embedding of `np.ndarray` /
`tvm.nd.NDArray`): a shape together with flat integer data. -/
structure Arr where
  shape : List Nat
  data : List Int
deriving DecidableEq, Repr

/-- Embedding of `nebullvm.base.ModelParams` as used by this file:
a batch size and an ordered list of per-output shapes. -/
structure ModelParams where
  batch_size : Nat
  output_sizes : List (List Nat)
deriving DecidableEq, Repr

/-- A resolved TVM device: the target string it was resolved from and the
device index. -/
structure TVMDevice where
  target : String
  index : Nat
deriving DecidableEq, Repr

/-- Embedding of `tvm.device(str(target_device), idx)`. -/
def tvm_device (target : String) (index : Nat) : TVMDevice :=
  ⟨target, index⟩

/-- Embedding of a compiled `tvm.runtime.Module`: an opaque executable,
modelled as the pure function it computes — from the finally bound named
inputs and an output index to that output's flat data. -/
structure RuntimeModule where
  exec : List (String × Arr) → Nat → List Int

/-- Binding a named input slot: overwrite an existing binding of the same
name, otherwise append (the backend keys bound inputs by name). -/
def bindInput : List (String × Arr) → String → Arr → List (String × Arr)
  | [], n, a => [(n, a)]
  | (m, b) :: rest, n, a =>
      if m = n then (n, a) :: rest else (m, b) :: bindInput rest n a

/-- Embedding of `tvm.contrib.graph_executor.GraphModule`: the compiled
module it executes, the device it is bound to, the currently bound named
inputs, and — once `run` has been called — the snapshot of bound inputs the
outputs were computed from. -/
structure GraphModule where
  mod : RuntimeModule
  dev : TVMDevice
  bound : List (String × Arr)
  ranWith : Option (List (String × Arr))

/-- Embedding of `GraphModule(lib["default"](dev))`: a fresh executor for
`lib` bound to `dev`, with no inputs bound and not yet run. -/
def GraphModule.create (lib : RuntimeModule) (dev : TVMDevice) : GraphModule :=
  ⟨lib, dev, [], none⟩

/-- Embedding of `graph_executor_module.set_input(name, array)`. -/
def GraphModule.set_input (gm : GraphModule) (name : String) (arr : Arr) :
    GraphModule :=
  { gm with bound := bindInput gm.bound name arr }

/-- Embedding of `graph_executor_module.run()`: computes all outputs from the inputs
bound at this moment. -/
def GraphModule.run (gm : GraphModule) : GraphModule :=
  { gm with ranWith := some gm.bound }

/-- Embedding of `tvm.nd.empty(shape)`: a zero-initialised buffer of the
given shape. -/
def tvm_nd_empty (shape : List Nat) : Arr :=
  ⟨shape, List.replicate shape.prod 0⟩

/-- Embedding of `graph_executor_module.get_output(i, buffer).numpy()`: the i-th output
copied into `buffer` (so its shape is the buffer's shape); before `run`
the buffer is returned untouched. -/
def GraphModule.get_output (gm : GraphModule) (i : Nat) (buffer : Arr) :
    Arr :=
  match gm.ranWith with
  | some snapshot => ⟨buffer.shape, gm.mod.exec snapshot i⟩
  | none => buffer

/-- One observable interaction with the TVM backend, recorded in call
order. -/
inductive TVMEvent where
  | set_input (name : String) (arr : Arr)
  | runEvent
  | get_output (i : Nat) (bufferShape : List Nat)
deriving DecidableEq, Repr

/-- Whether an event is a `set_input` call. -/
def TVMEvent.isSet : TVMEvent → Bool
  | .set_input _ _ => true
  | _ => false

/-- Whether an event is a `run()` call. -/
def TVMEvent.isRunCall : TVMEvent → Bool
  | .runEvent => true
  | _ => false

/-- The dataclass `ApacheTVMInferenceLearner`: `network_parameters` is
inherited from `BaseInferenceLearner`; the remaining fields are declared in
`tvm.py`. -/
structure ApacheTVMInferenceLearner where
  network_parameters : ModelParams
  graph_executor_module : GraphModule
  input_names : List String
  lib : RuntimeModule
  target : String

/-- The `for name, array in zip(...)` loop of `_predict_array`: threads the
executor state through successive `set_input` calls and records the trace. -/
def setInputLoop (gm : GraphModule) :
    List (String × Arr) → GraphModule × List TVMEvent
  | [] => (gm, [])
  | (n, a) :: rest =>
      let step := setInputLoop (gm.set_input n a) rest
      (step.1, TVMEvent.set_input n a :: step.2)

/-- Embedding of `ApacheTVMInferenceLearner._predict_array` with the output
generator fully consumed: pairs `input_names` with the supplied arrays via
`zip`, calls `set_input` on each pair, calls `run()`, then for each indexed
output size allocates an empty `(batch_size, *output_size)` buffer and calls
`get_output`.  Returns the updated learner, the backend event trace, and the
output arrays. -/
def ApacheTVMInferenceLearner._predict_array
    (self : ApacheTVMInferenceLearner) (input_arrays : List Arr) :
    ApacheTVMInferenceLearner × List TVMEvent × List Arr :=
  let pairs := self.input_names.zip input_arrays
  let afterSet := setInputLoop self.graph_executor_module pairs
  let gm2 := afterSet.1.run
  let indexed := self.network_parameters.output_sizes.enum
  let outputs := indexed.map (fun p =>
    gm2.get_output p.1
      (tvm_nd_empty (self.network_parameters.batch_size :: p.2)))
  let outEvents := indexed.map (fun p =>
    TVMEvent.get_output p.1 (self.network_parameters.batch_size :: p.2))
  ({ self with graph_executor_module := gm2 },
   afterSet.2 ++ TVMEvent.runEvent :: outEvents,
   outputs)

/-- Embedding of `ApacheTVMInferenceLearner.from_runtime_module`: resolves
the device from the target string at index 0, instantiates a fresh graph
executor from the module's default entry point, and constructs the handle
with the given fields. -/
def ApacheTVMInferenceLearner.from_runtime_module
    (network_parameters : ModelParams) (lib : RuntimeModule)
    (target_device : String) (input_names : List String) :
    ApacheTVMInferenceLearner :=
  let dev := tvm_device target_device 0
  let graph_executor_module := GraphModule.create lib dev
  { network_parameters := network_parameters
    graph_executor_module := graph_executor_module
    input_names := input_names
    lib := lib
    target := target_device }

/-- A device identity as it flows through the PyTorch adapter: either an
integer device index (what `torch.Tensor.get_device()` yields) or a string
identity such as `"cpu"`. -/
inductive DeviceId where
  | intDev (i : Int)
  | strDev (s : String)
deriving DecidableEq, Repr

/-- Embedding of `PytorchApacheTVMInferenceLearner._convert_device`:
`isinstance(device, int)` maps to `"cpu"`; anything else passes through. -/
def PytorchApacheTVMInferenceLearner._convert_device
    (device : DeviceId) : DeviceId :=
  match device with
  | .intDev _ => .strDev "cpu"
  | d => d

/-- Embedding of `torch.Tensor`: a raw array payload, the device the tensor
lives on, and whether it is attached to a gradient graph. -/
structure TorchTensor where
  arr : Arr
  device : DeviceId
  requires_grad : Bool
deriving DecidableEq, Repr

/-- Embedding of `tensor.get_device()`: the tensor's device identity. -/
def TorchTensor.get_device (t : TorchTensor) : DeviceId :=
  t.device

/-- Embedding of `tensor.cpu()`: the same tensor moved to host memory. -/
def TorchTensor.cpu (t : TorchTensor) : TorchTensor :=
  { t with device := .strDev "cpu" }

/-- Embedding of `tensor.detach()`: the same tensor detached from the gradient graph. -/
def TorchTensor.detach (t : TorchTensor) : TorchTensor :=
  { t with requires_grad := false }

/-- Embedding of `tensor.numpy()`: the raw array view of a host tensor. -/
def TorchTensor.numpy (t : TorchTensor) : Arr :=
  t.arr

/-- Embedding of `torch.from_numpy(array)`: a host tensor over the array, outside any
gradient graph. -/
def torch_from_numpy (a : Arr) : TorchTensor :=
  ⟨a, .strDev "cpu", false⟩

/-- Embedding of `tensor.to(device)`: the same tensor rebound to `device`. -/
def TorchTensor.to (t : TorchTensor) (device : DeviceId) : TorchTensor :=
  { t with device := device }

/-- A Python-level runtime error raised by the adapter itself (before the
backend is reached). -/
inductive PyError where
  | indexError
deriving DecidableEq, Repr

/-- Embedding of `PytorchApacheTVMInferenceLearner.predict`: indexes
`input_tensors[0]` (an `IndexError` on an empty argument tuple), normalises
that tensor's device, marshals every input via `.cpu().detach().numpy()`,
runs `_predict_array`, and rebinds each output to the detected device.
Returns the updated learner, the backend event trace, and the outputs. -/
def PytorchApacheTVMInferenceLearner.predict
    (self : ApacheTVMInferenceLearner) (input_tensors : List TorchTensor) :
    Except PyError
      (ApacheTVMInferenceLearner × List TVMEvent × List TorchTensor) :=
  match input_tensors with
  | [] => .error .indexError
  | t0 :: _ =>
    let device := PytorchApacheTVMInferenceLearner._convert_device
      t0.get_device
    let input_arrays := input_tensors.map (fun t => ((t.cpu).detach).numpy)
    let result := self._predict_array input_arrays
    .ok (result.1, result.2.1,
      result.2.2.map (fun output_array =>
        (torch_from_numpy output_array).to device))

/-- A filesystem path, as a list of components. -/
abbrev FsPath := List String

/-- Modelled from the spec: the metadata record written by
`LearnerMetadata.from_model` / `LearnerMetadata.save` and read back by
`LearnerMetadata.read` (`nebullvm/inference_learners/base.py` is not part
of this subsystem's sources).  Per §4.4 / §6 it carries
`network_parameters`, `input_names` and `target`. -/
structure LearnerMetadata where
  network_parameters : ModelParams
  input_names : List String
  target : String
deriving DecidableEq, Repr

/-- The contents of one file of a persisted artifact directory. -/
inductive FileData where
  | metadataFile (m : LearnerMetadata)
  | engineFile (m : RuntimeModule)

/-- A filesystem: an association of paths to file contents, most recent
write first. -/
abbrev FS := List (FsPath × FileData)

/-- Reads the file at a path, if present. -/
def fsLookup (fs : FS) (p : FsPath) : Option FileData :=
  match fs with
  | [] => none
  | (q, d) :: rest => if q = p then some d else fsLookup rest p

/-- Writes a file at a path. -/
def fsWrite (fs : FS) (p : FsPath) (d : FileData) : FS :=
  (p, d) :: fs

/-- Modelled from the spec: the fixed well-known engine filename
`TVM_FILENAMES["engine"]` (`nebullvm/config.py` is not part of this
subsystem's sources). -/
def TVM_FILENAMES_engine : String := "engine.so"

/-- Modelled from the spec: the fixed metadata filename used by
`LearnerMetadata.save` / `LearnerMetadata.read`. -/
def METADATA_FILENAME : String := "metadata.json"

/-- Modelled from the spec: `LearnerMetadata.from_model(self,
input_names=..., target=...)` collects the handle's network parameters
together with the passed input names and target. -/
def LearnerMetadata.from_model (self : ApacheTVMInferenceLearner) :
    LearnerMetadata :=
  ⟨self.network_parameters, self.input_names, self.target⟩

/-- Modelled from the spec: `metadata.save(path)` writes the metadata
record into the directory `path`. -/
def LearnerMetadata.save (m : LearnerMetadata) (path : FsPath) (fs : FS) :
    FS :=
  fsWrite fs (path ++ [METADATA_FILENAME]) (.metadataFile m)

/-- The error taxonomy of §7 for the operations modelled here. -/
inductive TVMError where
  | ArtifactNotFoundError
  | MetadataCorruptError
  | UnsupportedFrameworkError
deriving DecidableEq, Repr

/-- Modelled from the spec: `LearnerMetadata.read(path)` reads the metadata
record from the directory `path`; a missing artifact file fails with
`ArtifactNotFoundError` (§4.4). -/
def LearnerMetadata.read (path : FsPath) (fs : FS) :
    Except TVMError LearnerMetadata :=
  match fsLookup fs (path ++ [METADATA_FILENAME]) with
  | some (.metadataFile m) => .ok m
  | _ => .error .ArtifactNotFoundError

/-- Modelled from the spec: `tvm.runtime.load_module(file)` loads the
exported compiled binary back; a missing file fails with
`ArtifactNotFoundError` (§4.4, the export/import contract is assumed
faithful: the loaded module is the exported one). -/
def tvm_runtime_load_module (file : FsPath) (fs : FS) :
    Except TVMError RuntimeModule :=
  match fsLookup fs file with
  | some (.engineFile m) => .ok m
  | _ => .error .ArtifactNotFoundError

/-- Embedding of `ApacheTVMInferenceLearner.save`: writes the metadata
record to `path`, then exports the compiled library to
`path / TVM_FILENAMES["engine"]`. -/
def ApacheTVMInferenceLearner.save (self : ApacheTVMInferenceLearner)
    (path : FsPath) (fs : FS) : FS :=
  let metadata := LearnerMetadata.from_model self
  let fs1 := metadata.save path fs
  fsWrite fs1 (path ++ [TVM_FILENAMES_engine]) (.engineFile self.lib)

/-- Embedding of `ApacheTVMInferenceLearner.load`: reads the metadata,
reconstructs `ModelParams`, loads the compiled module from the fixed engine
filename, and rebuilds the handle via `from_runtime_module`. -/
def ApacheTVMInferenceLearner.load (path : FsPath) (fs : FS) :
    Except TVMError ApacheTVMInferenceLearner :=
  match LearnerMetadata.read path fs with
  | .error e => .error e
  | .ok metadata =>
    let network_parameters := metadata.network_parameters
    match tvm_runtime_load_module (path ++ [TVM_FILENAMES_engine]) fs with
    | .error e => .error e
    | .ok lib =>
      let target_device := metadata.target
      let input_names := metadata.input_names
      .ok (ApacheTVMInferenceLearner.from_runtime_module
        network_parameters lib target_device input_names)

/-- Modelled from the spec: the host-framework identity enumeration
(`nebullvm.base.DeepLearningFramework` is not part of this subsystem's
sources).  §4.5 contemplates identities with no adapter in the dispatch
table; `NUMPY` stands for such an identity. -/
inductive DeepLearningFramework where
  | PYTORCH
  | TENSORFLOW
  | NUMPY
deriving DecidableEq, Repr

/-- A tag for the concrete adapter classes the dispatch table maps to. -/
inductive TVMLearnerClass where
  | pytorchClass
  | tensorflowClass
deriving DecidableEq, Repr

/-- Embedding of the `TVM_INFERENCE_LEARNERS` dict literal. -/
def TVM_INFERENCE_LEARNERS :
    List (DeepLearningFramework × TVMLearnerClass) :=
  [(.PYTORCH, .pytorchClass), (.TENSORFLOW, .tensorflowClass)]

/-- Dict lookup in `TVM_INFERENCE_LEARNERS`; per §4.5 an identity absent
from the table fails with `UnsupportedFrameworkError`. -/
def lookupLearner (framework : DeepLearningFramework) :
    Except TVMError TVMLearnerClass :=
  match TVM_INFERENCE_LEARNERS.lookup framework with
  | some cls => .ok cls
  | none => .error .UnsupportedFrameworkError

/-- A handle as produced by the sole ingestion point
`from_runtime_module` (§6): its executor is fresh over its own library and
a device resolved from its own target. -/
def ApacheTVMInferenceLearner.WellFormed
    (self : ApacheTVMInferenceLearner) : Prop :=
  self.graph_executor_module =
    GraphModule.create self.lib (tvm_device self.target 0)

/-- A concrete compiled module used to exercise the model on closed
inputs: output `i` is the data of the `i`-th bound input, negated. -/
def sampleModule : RuntimeModule :=
  ⟨fun bound i => ((bound.map (fun p => p.2.data)).getD i []).map
    (fun x => -x)⟩

/-- A concrete well-formed handle with batch size 2 and a single output of
size (10,). -/
def sampleLearner : ApacheTVMInferenceLearner :=
  ApacheTVMInferenceLearner.from_runtime_module
    ⟨2, [[10]]⟩ sampleModule "llvm" ["input_0", "input_1"]

/-- A concrete raw array of shape (2, 3). -/
def sampleArr : Arr :=
  ⟨[2, 3], [1, 2, 3, 4, 5, 6]⟩

/-- The event trace produced by one `_predict_array` call. -/
def predictTrace (self : ApacheTVMInferenceLearner)
    (input_arrays : List Arr) : List TVMEvent :=
  (self._predict_array input_arrays).2.1

/-- The output arrays produced by one `_predict_array` call. -/
def predictOutputs (self : ApacheTVMInferenceLearner)
    (input_arrays : List Arr) : List Arr :=
  (self._predict_array input_arrays).2.2

theorem zip_map_eq_zipWith {α β γ : Type} (f : α → β → γ) :
    ∀ (l : List α) (l' : List β),
      (l.zip l').map (fun p => f p.1 p.2) = List.zipWith f l l'
  | [], _ => rfl
  | _ :: _, [] => rfl
  | a :: l, b :: l' => by
      simpa using zip_map_eq_zipWith f l l'

theorem setInputLoop_trace (pairs : List (String × Arr)) :
    ∀ gm, (setInputLoop gm pairs).2 =
      pairs.map (fun p => TVMEvent.set_input p.1 p.2) := by
  induction pairs with
  | nil => intro gm; rfl
  | cons p rest ih =>
      intro gm
      obtain ⟨n, a⟩ := p
      simp [setInputLoop, ih]

theorem predictTrace_eq (self : ApacheTVMInferenceLearner)
    (input_arrays : List Arr) :
    predictTrace self input_arrays =
      List.zipWith TVMEvent.set_input self.input_names input_arrays ++
      TVMEvent.runEvent ::
        self.network_parameters.output_sizes.enum.map (fun p =>
          TVMEvent.get_output p.1
            (self.network_parameters.batch_size :: p.2)) := by
  simp [predictTrace, ApacheTVMInferenceLearner._predict_array,
        setInputLoop_trace, zip_map_eq_zipWith]

theorem countP_set_zipWith (l : List String) (l' : List Arr) :
    (List.zipWith TVMEvent.set_input l l').countP TVMEvent.isSet =
      min l.length l'.length := by
  induction l generalizing l' with
  | nil => simp
  | cons a l ih =>
      cases l' with
      | nil => simp
      | cons b l' =>
          simp [List.countP_cons, ih, TVMEvent.isSet]
          omega

theorem countP_runCall_zipWith (l : List String) (l' : List Arr) :
    (List.zipWith TVMEvent.set_input l l').countP TVMEvent.isRunCall = 0 := by
  induction l generalizing l' with
  | nil => simp
  | cons a l ih =>
      cases l' with
      | nil => simp
      | cons b l' => simp [List.countP_cons, ih, TVMEvent.isRunCall]

theorem countP_outEvents (q : TVMEvent → Bool)
    (hq : ∀ i s, q (TVMEvent.get_output i s) = false)
    (b : Nat) (l : List (Nat × List Nat)) :
    (l.map (fun p => TVMEvent.get_output p.1 (b :: p.2))).countP q = 0 := by
  rw [List.countP_eq_zero]
  intro e he
  obtain ⟨p, _, rfl⟩ := List.mem_map.1 he
  simp [hq]

/-- C1: with as many supplied arrays as input names (say N), the predict
sequence calls `set_input` exactly N times, pairing the i-th name with the
i-th array in input-name-list order (the first N trace events are exactly
that pairing), and the very next event — the only `run()` of the trace —
follows them. -/
theorem predict_array_call_sequence (self : ApacheTVMInferenceLearner)
    (input_arrays : List Arr)
    (h : input_arrays.length = self.input_names.length) :
    (predictTrace self input_arrays).countP TVMEvent.isSet =
      self.input_names.length ∧
    (predictTrace self input_arrays).countP TVMEvent.isRunCall = 1 ∧
    (predictTrace self input_arrays).take self.input_names.length =
      List.zipWith TVMEvent.set_input self.input_names input_arrays ∧
    (predictTrace self input_arrays)[self.input_names.length]? =
      some TVMEvent.runEvent := by
  have hlen :
      (List.zipWith TVMEvent.set_input self.input_names
        input_arrays).length = self.input_names.length := by
    simp [List.length_zipWith, h]
  refine ⟨?_, ?_, ?_, ?_⟩
  · simp [predictTrace_eq, List.countP_append, List.countP_cons,
          countP_set_zipWith, countP_outEvents, TVMEvent.isSet, h]
  · simp [predictTrace_eq, List.countP_append, List.countP_cons,
          countP_runCall_zipWith, countP_outEvents, TVMEvent.isRunCall]
  · rw [predictTrace_eq, ← hlen, List.take_left]
  · rw [predictTrace_eq, ← hlen, List.getElem?_append_right (le_refl _)]
    simp

/-- Witness for C1: the call sequence property at a concrete handle with
two input names and two supplied arrays. -/
theorem predict_array_call_sequence_witness :
    ([sampleArr, sampleArr] : List Arr).length =
      sampleLearner.input_names.length ∧
    ((predictTrace sampleLearner [sampleArr, sampleArr]).countP
        TVMEvent.isSet = sampleLearner.input_names.length ∧
      (predictTrace sampleLearner [sampleArr, sampleArr]).countP
        TVMEvent.isRunCall = 1 ∧
      (predictTrace sampleLearner
          [sampleArr, sampleArr]).take sampleLearner.input_names.length =
        List.zipWith TVMEvent.set_input sampleLearner.input_names
          [sampleArr, sampleArr] ∧
      (predictTrace sampleLearner
          [sampleArr, sampleArr])[sampleLearner.input_names.length]? =
        some TVMEvent.runEvent) :=
  ⟨rfl, predict_array_call_sequence sampleLearner [sampleArr, sampleArr] rfl⟩

theorem mem_zipWith_set_isSet :
    ∀ (l : List String) (l' : List Arr) (e : TVMEvent),
      e ∈ List.zipWith TVMEvent.set_input l l' → TVMEvent.isSet e = true
  | a :: l, b :: l', e, he => by
      rcases List.mem_cons.1 he with rfl | he2
      · rfl
      · exact mem_zipWith_set_isSet l l' e he2

/-- C3: whatever the relative lengths of the supplied arrays and the
input-name list, the `set_input` calls are exactly the positional
name/array pairs truncated to the shorter of the two sequences
(`min` many of them), and the call completes normally — `run()` still
happens exactly once and all outputs are still produced (no error arises
from the mismatch; the model is a total function). -/
theorem predict_array_truncation (self : ApacheTVMInferenceLearner)
    (input_arrays : List Arr)
    (h : input_arrays.length ≠ self.input_names.length) :
    (predictTrace self input_arrays).filter TVMEvent.isSet =
      List.zipWith TVMEvent.set_input self.input_names input_arrays ∧
    (predictTrace self input_arrays).countP TVMEvent.isSet =
      min self.input_names.length input_arrays.length ∧
    (predictTrace self input_arrays).countP TVMEvent.isRunCall = 1 ∧
    (predictOutputs self input_arrays).length =
      self.network_parameters.output_sizes.length := by
  refine ⟨?_, ?_, ?_, ?_⟩
  · rw [predictTrace_eq, List.filter_append]
    have h1 : (List.zipWith TVMEvent.set_input self.input_names
        input_arrays).filter TVMEvent.isSet =
        List.zipWith TVMEvent.set_input self.input_names input_arrays :=
      List.filter_eq_self.2 (fun e he => mem_zipWith_set_isSet _ _ e he)
    have h2 : (TVMEvent.runEvent ::
        self.network_parameters.output_sizes.enum.map (fun p =>
          TVMEvent.get_output p.1
            (self.network_parameters.batch_size :: p.2))).filter
          TVMEvent.isSet = [] := by
      rw [List.filter_eq_nil_iff]
      intro e he
      rcases List.mem_cons.1 he with rfl | he2
      · simp [TVMEvent.isSet]
      · obtain ⟨p, -, rfl⟩ := List.mem_map.1 he2
        simp [TVMEvent.isSet]
    rw [h1, h2, List.append_nil]
  · simp [predictTrace_eq, List.countP_append, List.countP_cons,
          countP_set_zipWith, countP_outEvents, TVMEvent.isSet]
  · simp [predictTrace_eq, List.countP_append, List.countP_cons,
          countP_runCall_zipWith, countP_outEvents, TVMEvent.isRunCall]
  · simp [predictOutputs, ApacheTVMInferenceLearner._predict_array]

/-- Witness for C3: three arrays against two input names — exactly the two
positional pairs are set, with no error. -/
theorem predict_array_truncation_witness :
    ([sampleArr, sampleArr, sampleArr] : List Arr).length ≠
      sampleLearner.input_names.length ∧
    ((predictTrace sampleLearner
        [sampleArr, sampleArr, sampleArr]).filter TVMEvent.isSet =
      List.zipWith TVMEvent.set_input sampleLearner.input_names
        [sampleArr, sampleArr, sampleArr] ∧
    (predictTrace sampleLearner
        [sampleArr, sampleArr, sampleArr]).countP TVMEvent.isSet =
      min sampleLearner.input_names.length 3 ∧
    (predictTrace sampleLearner
        [sampleArr, sampleArr, sampleArr]).countP TVMEvent.isRunCall = 1 ∧
    (predictOutputs sampleLearner [sampleArr, sampleArr, sampleArr]).length =
      sampleLearner.network_parameters.output_sizes.length) :=
  ⟨by decide,
   predict_array_truncation sampleLearner
     [sampleArr, sampleArr, sampleArr] (by decide)⟩

/-- C5: the predict sequence yields exactly `len(output_sizes)` outputs,
in `output_sizes` order, the i-th allocated with shape
`(batch_size, *output_sizes[i])`; in particular the concrete handle with
`batch_size = 2` and `output_sizes = [(10,)]` yields exactly one output of
shape `(2, 10)`. -/
theorem predict_array_output_shapes :
    (∀ (self : ApacheTVMInferenceLearner) (input_arrays : List Arr),
      (predictOutputs self input_arrays).length =
        self.network_parameters.output_sizes.length ∧
      ∀ i : Nat,
        ((predictOutputs self input_arrays)[i]?).map Arr.shape =
          (self.network_parameters.output_sizes[i]?).map
            (fun s => self.network_parameters.batch_size :: s)) ∧
    (predictOutputs sampleLearner [sampleArr, sampleArr]).map Arr.shape =
      [[2, 10]] := by
  refine ⟨fun self input_arrays => ⟨?_, fun i => ?_⟩, ?_⟩
  · simp [predictOutputs, ApacheTVMInferenceLearner._predict_array]
  · simp [predictOutputs, ApacheTVMInferenceLearner._predict_array,
          GraphModule.run, GraphModule.get_output, List.getElem?_map,
          List.getElem?_enum, tvm_nd_empty]
    cases self.network_parameters.output_sizes[i]? <;> simp
  · decide

/-- C4: `_convert_device` maps every integer device identity (including 0)
to the string `"cpu"`, and returns every non-integer device identity
unchanged. -/
theorem convert_device_normalization :
    (∀ i : Int,
      PytorchApacheTVMInferenceLearner._convert_device (.intDev i) =
        .strDev "cpu") ∧
    ∀ d : DeviceId, (∀ i : Int, d ≠ .intDev i) →
      PytorchApacheTVMInferenceLearner._convert_device d = d := by
  refine ⟨fun i => rfl, fun d hd => ?_⟩
  cases d with
  | intDev i => exact absurd rfl (hd i)
  | strDev s => rfl

/-- Witness for C4: index 0 normalises to `"cpu"`; the string identity
`"cuda:1"` passes through unchanged. -/
theorem convert_device_normalization_witness :
    PytorchApacheTVMInferenceLearner._convert_device (.intDev 0) =
      .strDev "cpu" ∧
    PytorchApacheTVMInferenceLearner._convert_device (.strDev "cuda:1") =
      .strDev "cuda:1" :=
  ⟨convert_device_normalization.1 0,
   convert_device_normalization.2 (.strDev "cuda:1") (fun i h => nomatch h)⟩

/-- C9: the PyTorch variant's `predict` on zero input tensors fails with an
`IndexError` from `input_tensors[0]` — it never returns a (even empty)
result, and since the error is raised before any marshalling, no backend
call is made (the returned value carries no event trace). -/
theorem pytorch_predict_empty_inputs (self : ApacheTVMInferenceLearner) :
    PytorchApacheTVMInferenceLearner.predict self [] =
      .error PyError.indexError := by
  rfl

/-- C10: `from_runtime_module` resolves the device at index 0 whatever the
target string is, and the constructed handle's fields are exactly the
arguments: the parameters, the library, the input names in order, and
`target` equal to `target_device`. -/
theorem from_runtime_module_passthrough (network_parameters : ModelParams)
    (lib : RuntimeModule) (target_device : String)
    (input_names : List String) :
    (ApacheTVMInferenceLearner.from_runtime_module network_parameters lib
        target_device input_names).graph_executor_module.dev.index = 0 ∧
    (ApacheTVMInferenceLearner.from_runtime_module network_parameters lib
        target_device input_names).graph_executor_module =
      GraphModule.create lib (tvm_device target_device 0) ∧
    (ApacheTVMInferenceLearner.from_runtime_module network_parameters lib
        target_device input_names).network_parameters =
      network_parameters ∧
    (ApacheTVMInferenceLearner.from_runtime_module network_parameters lib
        target_device input_names).lib = lib ∧
    (ApacheTVMInferenceLearner.from_runtime_module network_parameters lib
        target_device input_names).input_names = input_names ∧
    (ApacheTVMInferenceLearner.from_runtime_module network_parameters lib
        target_device input_names).target = target_device :=
  ⟨rfl, rfl, rfl, rfl, rfl, rfl⟩

/-- C6: on a non-empty input list the PyTorch variant's `predict` takes the
device from the first tensor and normalises it, marshals every input in
positional order via `.cpu().detach().numpy()` — so each tensor reaching the
raw conversion is detached and on host memory — feeds exactly those arrays
positionally to the predict sequence, and maps the raw outputs positionally
to tensors rebound to the detected device. -/
theorem pytorch_predict_marshalling (self : ApacheTVMInferenceLearner)
    (t0 : TorchTensor) (rest : List TorchTensor) :
    PytorchApacheTVMInferenceLearner.predict self (t0 :: rest) =
      .ok ((self._predict_array
              ((t0 :: rest).map (fun t => ((t.cpu).detach).numpy))).1,
           predictTrace self
              ((t0 :: rest).map (fun t => ((t.cpu).detach).numpy)),
           (predictOutputs self
              ((t0 :: rest).map (fun t => ((t.cpu).detach).numpy))).map
             (fun a => (torch_from_numpy a).to
               (PytorchApacheTVMInferenceLearner._convert_device
                 t0.get_device))) ∧
    (∀ t ∈ t0 :: rest, ((t.cpu).detach).requires_grad = false ∧
      ((t.cpu).detach).device = DeviceId.strDev "cpu") ∧
    ∀ u ∈ (predictOutputs self
        ((t0 :: rest).map (fun t => ((t.cpu).detach).numpy))).map
          (fun a => (torch_from_numpy a).to
            (PytorchApacheTVMInferenceLearner._convert_device
              t0.get_device)),
      u.device =
        PytorchApacheTVMInferenceLearner._convert_device t0.get_device := by
  refine ⟨rfl, fun t ht => ⟨rfl, rfl⟩, fun u hu => ?_⟩
  obtain ⟨a, -, rfl⟩ := List.mem_map.1 hu
  rfl

/-- C2: saving a handle and loading from the same path yields a handle
with the same network parameters, the same input names in the same order,
and the same target, whose predict outputs on identical inputs are
bit-for-bit equal to the original's (the handle is assumed to come from
the sole ingestion point `from_runtime_module`, so its executor matches
its own library and target). -/
theorem save_load_roundtrip (self : ApacheTVMInferenceLearner)
    (path : FsPath) (fs : FS) (hwf : self.WellFormed) :
    ∃ reloaded : ApacheTVMInferenceLearner,
      ApacheTVMInferenceLearner.load path (self.save path fs) =
        .ok reloaded ∧
      reloaded.network_parameters = self.network_parameters ∧
      reloaded.input_names = self.input_names ∧
      reloaded.target = self.target ∧
      ∀ input_arrays : List Arr,
        predictOutputs reloaded input_arrays =
          predictOutputs self input_arrays := by
  obtain ⟨np, gem, names, lib, tgt⟩ := self
  simp only [ApacheTVMInferenceLearner.WellFormed] at hwf
  subst hwf
  have hne : (path ++ [TVM_FILENAMES_engine] = path ++ [METADATA_FILENAME])
      = False := by
    simp [TVM_FILENAMES_engine, METADATA_FILENAME]
  refine ⟨ApacheTVMInferenceLearner.from_runtime_module np lib tgt names,
    ?_, rfl, rfl, rfl, fun input_arrays => rfl⟩
  simp [ApacheTVMInferenceLearner.load, ApacheTVMInferenceLearner.save,
        LearnerMetadata.read, LearnerMetadata.save,
        LearnerMetadata.from_model, tvm_runtime_load_module, fsWrite,
        fsLookup, hne]

/-- Witness for C2: the round trip at the concrete sample handle, a
concrete directory path, and an empty filesystem. -/
theorem save_load_roundtrip_witness :
    ∃ reloaded : ApacheTVMInferenceLearner,
      ApacheTVMInferenceLearner.load ["model_dir"]
          (sampleLearner.save ["model_dir"] []) = .ok reloaded ∧
      reloaded.network_parameters = sampleLearner.network_parameters ∧
      reloaded.input_names = sampleLearner.input_names ∧
      reloaded.target = sampleLearner.target ∧
      ∀ input_arrays : List Arr,
        predictOutputs reloaded input_arrays =
          predictOutputs sampleLearner input_arrays :=
  save_load_roundtrip sampleLearner ["model_dir"] [] rfl

/-- C7: loading from a directory whose engine file is missing fails with
`ArtifactNotFoundError` — whether or not the metadata file is present. -/
theorem load_missing_engine_artifact_error (path : FsPath) (fs : FS)
    (h : fsLookup fs (path ++ [TVM_FILENAMES_engine]) = none) :
    ApacheTVMInferenceLearner.load path fs =
      .error TVMError.ArtifactNotFoundError := by
  unfold ApacheTVMInferenceLearner.load LearnerMetadata.read
    tvm_runtime_load_module
  rw [h]
  cases hm : fsLookup fs (path ++ [METADATA_FILENAME]) with
  | none => rfl
  | some d => cases d <;> rfl

/-- Witness for C7: loading from a directory on an empty filesystem. -/
theorem load_missing_engine_artifact_error_witness :
    fsLookup [] (["model_dir"] ++ [TVM_FILENAMES_engine]) = none ∧
    ApacheTVMInferenceLearner.load ["model_dir"] [] =
      .error TVMError.ArtifactNotFoundError :=
  ⟨rfl, load_missing_engine_artifact_error ["model_dir"] [] rfl⟩

/-- C8: any host-framework identity that is neither the PyTorch nor the
TensorFlow one has no entry in `TVM_INFERENCE_LEARNERS`, and looking it up
fails with `UnsupportedFrameworkError`. -/
theorem dispatch_unknown_framework (f : DeepLearningFramework)
    (h : f ≠ DeepLearningFramework.PYTORCH ∧
      f ≠ DeepLearningFramework.TENSORFLOW) :
    TVM_INFERENCE_LEARNERS.lookup f = none ∧
    lookupLearner f = .error TVMError.UnsupportedFrameworkError := by
  cases f with
  | PYTORCH => exact absurd rfl h.1
  | TENSORFLOW => exact absurd rfl h.2
  | NUMPY => exact ⟨rfl, rfl⟩

/-- Witness for C8: the numpy identity is in neither variant and its lookup
fails. -/
theorem dispatch_unknown_framework_witness :
    (DeepLearningFramework.NUMPY ≠ DeepLearningFramework.PYTORCH ∧
      DeepLearningFramework.NUMPY ≠ DeepLearningFramework.TENSORFLOW) ∧
    (TVM_INFERENCE_LEARNERS.lookup DeepLearningFramework.NUMPY = none ∧
      lookupLearner DeepLearningFramework.NUMPY =
        .error TVMError.UnsupportedFrameworkError) :=
  ⟨by decide, dispatch_unknown_framework DeepLearningFramework.NUMPY
    (by decide)⟩
